import Mathlib

/-!
Verification of the irrigation auto-control and crop-suitability scoring logic
of the IoT soil dashboard.

Sources embedded:
* `app/api/motor/auto-control/route.ts` — `POST`, `determineMotorAction`,
  `generateAutoControlReason`;
* the crop-recommendation API route — `generateCropRecommendations`,
  `calculateCropSuitability`, `calculateParameterScore`.

Modelling conventions:
* JS numbers are modelled as rationals (`ℚ`).
* The sensor payload is untyped JS (`sensorData: any`); a field may be absent
  (`undefined`).  Absent fields are `Option.none`; a JS comparison with
  `undefined` evaluates to `false` (`undefined > 1` is `NaN`-comparison),
  captured by `jsGt` / `jsLt`.
* `Math.round` is `jsRound` (floor of `x + 1/2`, the ECMAScript definition).
* The `motor_control` table is an append-only log ordered by `created_at`
  descending; it is modelled as a list whose head is the most recent row.
  `.single()` on an empty table fails, giving the fetch-error response.
* The `reason` text column is write-only for the control flow (never read
  back); the string templates of `generateAutoControlReason` are modelled by
  the inductive `ReasonMsg` carrying the interpolated numeric arguments.
  `x.toFixed(1)` throws a `TypeError` when `x` is `undefined`; a template that
  would format an absent field is therefore modelled as `none`, which the
  handler's outer `try/catch` turns into the internal-error response.
-/

/-- JS `x > c` where `x` may be `undefined`: comparisons with `undefined`
    are `false`. -/
def jsGt (x : Option ℚ) (c : ℚ) : Bool :=
  match x with
  | some v => decide (v > c)
  | none => false

/-- JS `x < c` where `x` may be `undefined`. -/
def jsLt (x : Option ℚ) (c : ℚ) : Bool :=
  match x with
  | some v => decide (v < c)
  | none => false

/-- The fields of the `sensor_readings` row destructured by
    `determineMotorAction`; the payload is untyped, so each field may be
    absent. -/
structure MotorSensorData where
  soil_moisture : Option ℚ
  air_temperature : Option ℚ
  air_humidity : Option ℚ
  rainfall : Option ℚ
deriving DecidableEq

/-- `determineMotorAction(sensorData)` from `auto-control/route.ts`. -/
def determineMotorAction (sensorData : MotorSensorData) : Bool :=
  -- Don't water if it's raining
  if jsGt sensorData.rainfall 1 then false
  -- Activate motor if soil moisture is low
  else if jsLt sensorData.soil_moisture 30 then true
  -- Deactivate motor if soil moisture is adequate or high
  else if jsGt sensorData.soil_moisture 60 then false
  -- Consider temperature and humidity for edge cases
  else if jsLt sensorData.soil_moisture 40 && jsGt sensorData.air_temperature 30
          && jsLt sensorData.air_humidity 50 then true
  -- Default: the source returns `false` here (its comment says
  -- "maintain current status", but the function has no access to the
  -- current status and unconditionally returns `false`)
  else false

/-- The string templates produced by `generateAutoControlReason`, with their
    interpolated numeric arguments; `external` stands for reason text written
    by other writers of the `motor_control` table (seed row, manual route). -/
inductive ReasonMsg where
  | rainfallMsg (rainfall : ℚ)
  | criticalMoisture (soil_moisture : ℚ)
  | lowMoisture (soil_moisture : ℚ)
  | hotDry (air_temperature air_humidity : ℚ)
  | highMoisture (soil_moisture : ℚ)
  | adequateMoisture (soil_moisture : ℚ)
  | autoFallback (soil_moisture air_temperature : ℚ)
  | external (text : String)
deriving DecidableEq

/-- `generateAutoControlReason(sensorData, shouldActivate)`.  Returns `none`
    when the selected template formats an absent field (`undefined.toFixed(1)`
    throws a `TypeError`). -/
def generateAutoControlReason (sensorData : MotorSensorData) (shouldActivate : Bool) :
    Option ReasonMsg :=
  -- the final return statement, reached when no earlier branch returns;
  -- it formats both soil_moisture and air_temperature
  let fallback : Option ReasonMsg :=
    match sensorData.soil_moisture, sensorData.air_temperature with
    | some sm, some ta => some (ReasonMsg.autoFallback sm ta)
    | _, _ => none
  if jsGt sensorData.rainfall 1 then
    sensorData.rainfall.map ReasonMsg.rainfallMsg
  else if shouldActivate then
    if jsLt sensorData.soil_moisture 20 then
      sensorData.soil_moisture.map ReasonMsg.criticalMoisture
    else if jsLt sensorData.soil_moisture 30 then
      sensorData.soil_moisture.map ReasonMsg.lowMoisture
    else if jsGt sensorData.air_temperature 30 && jsLt sensorData.air_humidity 50 then
      match sensorData.air_temperature, sensorData.air_humidity with
      | some ta, some ah => some (ReasonMsg.hotDry ta ah)
      | _, _ => none
    else fallback
  else
    if jsGt sensorData.soil_moisture 70 then
      sensorData.soil_moisture.map ReasonMsg.highMoisture
    else if jsGt sensorData.soil_moisture 60 then
      sensorData.soil_moisture.map ReasonMsg.adequateMoisture
    else fallback

/-- A row of the `motor_control` table (status BOOLEAN, mode VARCHAR,
    reason TEXT, changed_by VARCHAR). -/
structure MotorRecord where
  status : Bool
  mode : String
  reason : ReasonMsg
  changed_by : String
deriving DecidableEq

/-- The possible JSON responses of the auto-control `POST` handler. -/
inductive AutoControlResponse where
  | fetchError
  | manualMode (current_status : Bool)
  | internalError
  | changed (new_status : Bool) (reason : ReasonMsg)
  | noAction (current_status : Bool)
deriving DecidableEq

/-- The `POST` handler of `auto-control/route.ts`, from the point where the
    latest sensor reading has been fetched.  `log` is the `motor_control`
    table, most recent row first; the returned list is the table after the
    call. -/
def autoControlPost (sensorData : MotorSensorData) (log : List MotorRecord) :
    List MotorRecord × AutoControlResponse :=
  match log with
  | [] => (log, AutoControlResponse.fetchError)
  | motorData :: _ =>
    -- Only proceed if motor is in automatic mode
    if motorData.mode ≠ "automatic" then
      (log, AutoControlResponse.manualMode motorData.status)
    else
      let shouldActivate := determineMotorAction sensorData
      let currentStatus := motorData.status
      -- Only update if status needs to change
      if shouldActivate ≠ currentStatus then
        match generateAutoControlReason sensorData shouldActivate with
        | none => (log, AutoControlResponse.internalError)
        | some reason =>
          (⟨shouldActivate, "automatic", reason, "system"⟩ :: log,
           AutoControlResponse.changed shouldActivate reason)
      else
        (log, AutoControlResponse.noAction currentStatus)

/-- ECMAScript `Math.round`: round half toward positive infinity. -/
def jsRound (x : ℚ) : ℤ :=
  ⌊x + 1 / 2⌋

/-- The `optimal` table passed to `calculateCropSuitability`: a `[min, max]`
    pair per scored parameter. -/
structure OptimalRanges where
  soil_moisture : ℚ × ℚ
  soil_temperature : ℚ × ℚ
  air_temperature : ℚ × ℚ
  air_humidity : ℚ × ℚ
deriving DecidableEq

/-- `calculateParameterScore(value, optimal)` from the crop-recommendation
    route.  The destructured `[min, max]` is written `omin`/`omax` to keep the
    global `min`/`max` functions usable. -/
def calculateParameterScore (value : ℚ) (optimal : ℚ × ℚ) : ℚ :=
  let omin := optimal.1
  let omax := optimal.2
  let mid := (omin + omax) / 2
  let range := omax - omin
  if omin ≤ value ∧ value ≤ omax then
    -- Within optimal range, score based on distance from center
    let distanceFromCenter := |value - mid|
    100 - distanceFromCenter / (range / 2) * 20 -- Max penalty of 20 points
  else
    -- Outside optimal range, penalty based on distance
    let distance := if value < omin then omin - value else value - omax
    let penalty := min (distance * 5) 80 -- Max penalty of 80 points
    max 20 (100 - penalty) -- Minimum score of 20

/-- `calculateCropSuitability(params)`: `Math.round` of the arithmetic mean of
    the four per-parameter scores. -/
def calculateCropSuitability (soil_moisture soil_temperature air_temperature air_humidity : ℚ)
    (optimal : OptimalRanges) : ℤ :=
  let scores : List ℚ :=
    [calculateParameterScore soil_moisture optimal.soil_moisture,
     calculateParameterScore soil_temperature optimal.soil_temperature,
     calculateParameterScore air_temperature optimal.air_temperature,
     calculateParameterScore air_humidity optimal.air_humidity]
  jsRound (scores.foldl (· + ·) 0 / scores.length)

/-- A crop recommendation as far as ranking is concerned: the descriptive
    string fields (recommendation text, season, yield, care instructions, …)
    are constants or advice text never consulted by the ranking and are
    omitted. -/
structure CropRec where
  crop_type : String
  suitability_score : ℤ
deriving DecidableEq

/-- The ordering realised by `recommendations.sort((a, b) =>
    b.suitability_score - a.suitability_score)`: `a` may stay before `b`
    exactly when `b.suitability_score ≤ a.suitability_score`. -/
def recLE (a b : CropRec) : Prop :=
  b.suitability_score ≤ a.suitability_score

instance : DecidableRel recLE := fun a b =>
  inferInstanceAs (Decidable (b.suitability_score ≤ a.suitability_score))

instance : IsTotal CropRec recLE :=
  ⟨fun a b => le_total b.suitability_score a.suitability_score⟩

instance : IsTrans CropRec recLE :=
  ⟨fun _ _ _ h1 h2 => le_trans h2 h1⟩

/-- ECMAScript `Array.prototype.sort` is required to be stable; with the
    consistent comparator above it is a stable descending sort by
    `suitability_score`, modelled by stable insertion sort. -/
def sortRecs (l : List CropRec) : List CropRec :=
  l.insertionSort recLE

/-- The five hard-coded optimal tables of `generateCropRecommendations`. -/
def tomatoOptimal : OptimalRanges :=
  ⟨(40, 70), (18, 24), (20, 30), (50, 70)⟩

def lettuceOptimal : OptimalRanges :=
  ⟨(50, 80), (10, 18), (15, 25), (60, 80)⟩

def pepperOptimal : OptimalRanges :=
  ⟨(35, 65), (20, 28), (22, 32), (40, 60)⟩

def spinachOptimal : OptimalRanges :=
  ⟨(60, 85), (8, 16), (10, 20), (65, 85)⟩

def carrotOptimal : OptimalRanges :=
  ⟨(45, 75), (12, 20), (16, 24), (50, 70)⟩

/-- A profile's optimal table is non-degenerate when every `[min, max]` range
    satisfies `min < max`. -/
def nondegenerate (o : OptimalRanges) : Prop :=
  o.soil_moisture.1 < o.soil_moisture.2
  ∧ o.soil_temperature.1 < o.soil_temperature.2
  ∧ o.air_temperature.1 < o.air_temperature.2
  ∧ o.air_humidity.1 < o.air_humidity.2

/-- The fields of the `sensor_readings` row used by the crop scoring. -/
structure CropSensorData where
  soil_moisture : ℚ
  soil_temperature : ℚ
  air_temperature : ℚ
  air_humidity : ℚ
deriving DecidableEq

/-- The `recommendations` array in the order the source pushes the five
    crops, before sorting. -/
def cropCandidates (sensorData : CropSensorData) : List CropRec :=
  [⟨"Tomatoes", calculateCropSuitability sensorData.soil_moisture sensorData.soil_temperature
      sensorData.air_temperature sensorData.air_humidity tomatoOptimal⟩,
   ⟨"Lettuce", calculateCropSuitability sensorData.soil_moisture sensorData.soil_temperature
      sensorData.air_temperature sensorData.air_humidity lettuceOptimal⟩,
   ⟨"Peppers", calculateCropSuitability sensorData.soil_moisture sensorData.soil_temperature
      sensorData.air_temperature sensorData.air_humidity pepperOptimal⟩,
   ⟨"Spinach", calculateCropSuitability sensorData.soil_moisture sensorData.soil_temperature
      sensorData.air_temperature sensorData.air_humidity spinachOptimal⟩,
   ⟨"Carrots", calculateCropSuitability sensorData.soil_moisture sensorData.soil_temperature
      sensorData.air_temperature sensorData.air_humidity carrotOptimal⟩]

/-- `generateCropRecommendations(sensorData)`: score the five crops, then
    `// Sort by suitability score`. -/
def generateCropRecommendations (sensorData : CropSensorData) : List CropRec :=
  sortRecs (cropCandidates sensorData)

/-- A sensor reading in which all four fields required by the Irrigation
    Policy are present. -/
def fullReading (sm ta ah rain : ℚ) : MotorSensorData :=
  ⟨some sm, some ta, some ah, some rain⟩

/-! ### Helper lemmas -/

lemma jsRound_eq (x : ℚ) (n : ℤ) (h1 : (n : ℚ) ≤ x + 1 / 2) (h2 : x + 1 / 2 < n + 1) :
    jsRound x = n := by
  rw [jsRound, Int.floor_eq_iff]
  refine ⟨h1, ?_⟩
  have : ((n + 1 : ℤ) : ℚ) = (n : ℚ) + 1 := by push_cast; ring
  linarith [h2, this.ge]

lemma jsRound_bounds (x : ℚ) (lo hi : ℤ) (hlo : (lo : ℚ) ≤ x) (hhi : x ≤ hi) :
    lo ≤ jsRound x ∧ jsRound x ≤ hi := by
  constructor
  · exact Int.le_floor.mpr (by linarith)
  · have : jsRound x < hi + 1 := Int.floor_lt.mpr (by push_cast; linarith)
    omega

lemma calculateCropSuitability_eq (sm st ta ah : ℚ) (o : OptimalRanges) :
    calculateCropSuitability sm st ta ah o =
      jsRound ((calculateParameterScore sm o.soil_moisture
        + calculateParameterScore st o.soil_temperature
        + calculateParameterScore ta o.air_temperature
        + calculateParameterScore ah o.air_humidity) / 4) := by
  simp only [calculateCropSuitability, List.foldl, List.length]
  norm_num

lemma paramScore_in_range (v omin omax : ℚ) (h1 : omin ≤ v) (h2 : v ≤ omax) :
    calculateParameterScore v (omin, omax) =
      100 - |v - (omin + omax) / 2| / ((omax - omin) / 2) * 20 := by
  simp only [calculateParameterScore]
  rw [if_pos ⟨h1, h2⟩]

lemma paramScore_bounds (v : ℚ) (p : ℚ × ℚ) (h : p.1 < p.2) :
    20 ≤ calculateParameterScore v p ∧ calculateParameterScore v p ≤ 100 := by
  obtain ⟨omin, omax⟩ := p
  simp only at h
  by_cases hin : omin ≤ v ∧ v ≤ omax
  · obtain ⟨h1, h2⟩ := hin
    rw [paramScore_in_range v omin omax h1 h2]
    have hr : (0 : ℚ) < (omax - omin) / 2 := by linarith
    have habs : |v - (omin + omax) / 2| ≤ (omax - omin) / 2 := by
      rw [abs_le]
      constructor <;> linarith
    have hq1 : |v - (omin + omax) / 2| / ((omax - omin) / 2) ≤ 1 :=
      (div_le_one hr).mpr habs
    have hq0 : 0 ≤ |v - (omin + omax) / 2| / ((omax - omin) / 2) :=
      div_nonneg (abs_nonneg _) hr.le
    constructor <;> nlinarith
  · simp only [calculateParameterScore]
    rw [if_neg hin]
    push_neg at hin
    have hd : 0 ≤ if v < omin then omin - v else v - omax := by
      split_ifs with hv
      · linarith
      · have := hin (le_of_not_lt hv)
        linarith
    have hp0 : 0 ≤ min ((if v < omin then omin - v else v - omax) * 5) 80 :=
      le_min (by linarith) (by norm_num)
    constructor
    · exact le_max_left _ _
    · exact max_le (by norm_num) (by linarith)

lemma paramScore_mid (omin omax : ℚ) (h : omin < omax) :
    calculateParameterScore ((omin + omax) / 2) (omin, omax) = 100 := by
  rw [paramScore_in_range _ _ _ (by linarith) (by linarith)]
  simp

lemma paramScore_left_edge (omin omax : ℚ) (h : omin < omax) :
    calculateParameterScore omin (omin, omax) = 80 := by
  rw [paramScore_in_range _ _ _ le_rfl h.le]
  have habs : |omin - (omin + omax) / 2| = (omax - omin) / 2 := by
    rw [abs_of_nonpos (by linarith)]
    ring
  rw [habs, div_self (by linarith)]
  norm_num

lemma paramScore_right_edge (omin omax : ℚ) (h : omin < omax) :
    calculateParameterScore omax (omin, omax) = 80 := by
  rw [paramScore_in_range _ _ _ h.le le_rfl]
  have habs : |omax - (omin + omax) / 2| = (omax - omin) / 2 := by
    rw [abs_of_nonneg (by linarith)]
    ring
  rw [habs, div_self (by linarith)]
  norm_num

lemma paramScore_below (omin omax d : ℚ) (hd0 : 0 < d) (hd4 : d < 4) :
    calculateParameterScore (omin - d) (omin, omax) = 100 - 5 * d := by
  simp only [calculateParameterScore]
  rw [if_neg (by rintro ⟨h1, -⟩; linarith)]
  rw [if_pos (by linarith)]
  have h1 : (omin - (omin - d)) * 5 = 5 * d := by ring
  rw [h1, min_eq_left (by linarith), max_eq_right (by linarith)]

lemma paramScore_above (omin omax d : ℚ) (h : omin < omax) (hd0 : 0 < d) (hd4 : d < 4) :
    calculateParameterScore (omax + d) (omin, omax) = 100 - 5 * d := by
  simp only [calculateParameterScore]
  rw [if_neg (by rintro ⟨-, h2⟩; linarith)]
  rw [if_neg (by push_neg; linarith)]
  have h1 : (omax + d - omax) * 5 = 5 * d := by ring
  rw [h1, min_eq_left (by linarith), max_eq_right (by linarith)]

lemma generateAutoControlReason_isSome (sm ta ah rain : ℚ) (sa : Bool) :
    (generateAutoControlReason (fullReading sm ta ah rain) sa).isSome := by
  simp only [generateAutoControlReason, fullReading]
  split_ifs <;> simp

lemma filter_orderedInsert_of_eq (k : ℤ) (b : CropRec) (hb : b.suitability_score = k)
    (s : List CropRec) :
    (s.orderedInsert recLE b).filter (fun x => decide (x.suitability_score = k)) =
      b :: s.filter (fun x => decide (x.suitability_score = k)) := by
  induction s with
  | nil => simp [List.orderedInsert, hb]
  | cons c s ih =>
    by_cases h : recLE b c
    · simp [List.orderedInsert, h, List.filter_cons, hb]
    · have hc : ¬(c.suitability_score = k) := by
        intro hck
        exact h (by rw [recLE, hb, hck])
      simp [List.orderedInsert, h, List.filter_cons, hc, ih]

lemma filter_orderedInsert_of_ne (k : ℤ) (b : CropRec) (hb : ¬(b.suitability_score = k))
    (s : List CropRec) :
    (s.orderedInsert recLE b).filter (fun x => decide (x.suitability_score = k)) =
      s.filter (fun x => decide (x.suitability_score = k)) := by
  induction s with
  | nil => simp [List.orderedInsert, hb]
  | cons c s ih =>
    by_cases h : recLE b c
    · simp [List.orderedInsert, h, List.filter_cons, hb]
    · simp [List.orderedInsert, h, List.filter_cons, ih]

lemma filter_sortRecs (k : ℤ) (l : List CropRec) :
    (sortRecs l).filter (fun x => decide (x.suitability_score = k)) =
      l.filter (fun x => decide (x.suitability_score = k)) := by
  induction l with
  | nil => rfl
  | cons b l ih =>
    by_cases hb : b.suitability_score = k
    · rw [sortRecs, List.insertionSort, filter_orderedInsert_of_eq k b hb]
      rw [show List.insertionSort recLE l = sortRecs l from rfl, ih]
      simp [List.filter_cons, hb]
    · rw [sortRecs, List.insertionSort, filter_orderedInsert_of_ne k b hb]
      rw [show List.insertionSort recLE l = sortRecs l from rfl, ih]
      simp [List.filter_cons, hb]

lemma sortRecs_sorted (l : List CropRec) : List.Sorted recLE (sortRecs l) :=
  List.sorted_insertionSort recLE l

lemma sortRecs_perm (l : List CropRec) : List.Perm (sortRecs l) l :=
  List.perm_insertionSort recLE l

/-! ### Claim theorems -/

/-- C1: with 30 ≤ soil_moisture ≤ 60, rainfall ≤ 1 and no hot-dry condition,
    the code does NOT hold the current motor state: `determineMotorAction`
    returns `false` unconditionally in its default branch (contradicting its
    own comment "maintain current status"), so with current status on the
    handler appends a deactivation record, while with current status off it
    leaves the log unchanged.  This theorem evaluates the code at the failing
    input of the code-bug report. -/
theorem autoControl_default_deactivates_on :
    determineMotorAction (fullReading 50 22 60 0) = false
    ∧ autoControlPost (fullReading 50 22 60 0)
        [⟨true, "automatic", ReasonMsg.external "Initial setup", "system"⟩] =
      (⟨false, "automatic", ReasonMsg.autoFallback 50 22, "system"⟩ ::
         [⟨true, "automatic", ReasonMsg.external "Initial setup", "system"⟩],
       AutoControlResponse.changed false (ReasonMsg.autoFallback 50 22))
    ∧ autoControlPost (fullReading 50 22 60 0)
        [⟨false, "automatic", ReasonMsg.external "Initial setup", "system"⟩] =
      ([⟨false, "automatic", ReasonMsg.external "Initial setup", "system"⟩],
       AutoControlResponse.noAction false) := by
  refine ⟨by decide, by decide, by decide⟩

/-- C2 counterexample: a reading missing the required `rainfall` field (with
    soil_moisture = 15, current status off/automatic) does not fail with any
    `InvalidInputError`: the policy computes `activate = true` and the handler
    appends a new activation record, changing the persisted motor state. -/
theorem autoControl_missing_field_toggles :
    autoControlPost ⟨some 15, some 22, some 60, none⟩
        [⟨false, "automatic", ReasonMsg.external "Initial setup", "system"⟩] =
      (⟨true, "automatic", ReasonMsg.criticalMoisture 15, "system"⟩ ::
         [⟨false, "automatic", ReasonMsg.external "Initial setup", "system"⟩],
       AutoControlResponse.changed true (ReasonMsg.criticalMoisture 15)) := by
  decide

/-- C2 amended: no validation and no `InvalidInputError` exist.  A missing
    field's comparisons are all false; the policy still returns a Boolean
    decision and the handler appends whenever it differs from the current
    status — a reading missing only `rainfall` toggles the motor on.  Only
    when the fall-through reason template formats a missing field (e.g. all
    four fields missing while a state change is pending) does the handler
    throw (`undefined.toFixed`), caught as an internal error, leaving the log
    unchanged. -/
theorem autoControl_missing_fields_behavior (rest : List MotorRecord) :
    (autoControlPost ⟨some 15, some 22, some 60, none⟩
        (⟨false, "automatic", ReasonMsg.external "Initial setup", "system"⟩ :: rest)).1 =
      ⟨true, "automatic", ReasonMsg.criticalMoisture 15, "system"⟩ ::
        ⟨false, "automatic", ReasonMsg.external "Initial setup", "system"⟩ :: rest
    ∧ determineMotorAction ⟨none, none, none, none⟩ = false
    ∧ (autoControlPost ⟨none, none, none, none⟩
        (⟨true, "automatic", ReasonMsg.external "Initial setup", "system"⟩ :: rest)).1 =
      ⟨true, "automatic", ReasonMsg.external "Initial setup", "system"⟩ :: rest
    ∧ (autoControlPost ⟨none, none, none, none⟩
        (⟨true, "automatic", ReasonMsg.external "Initial setup", "system"⟩ :: rest)).2 =
      AutoControlResponse.internalError := by
  refine ⟨?_, by decide, ?_, ?_⟩ <;>
    norm_num [autoControlPost, determineMotorAction, generateAutoControlReason, jsGt, jsLt]

/-- C4: the Irrigation Policy evaluates its rules in fixed priority, first
    match winning: rainfall > 1 forces `false` (even with low moisture);
    otherwise soil_moisture < 30 forces `true`; otherwise soil_moisture > 60
    forces `false`; otherwise soil_moisture < 40 ∧ air_temperature > 30 ∧
    air_humidity < 50 forces `true`. -/
theorem determineMotorAction_priority (sm ta ah rain : ℚ) :
    (rain > 1 → determineMotorAction (fullReading sm ta ah rain) = false)
    ∧ (¬rain > 1 → sm < 30 → determineMotorAction (fullReading sm ta ah rain) = true)
    ∧ (¬rain > 1 → ¬sm < 30 → sm > 60 →
        determineMotorAction (fullReading sm ta ah rain) = false)
    ∧ (¬rain > 1 → ¬sm < 30 → ¬sm > 60 → sm < 40 → ta > 30 → ah < 50 →
        determineMotorAction (fullReading sm ta ah rain) = true) := by
  refine ⟨?_, ?_, ?_, ?_⟩ <;>
    · intros
      simp [determineMotorAction, fullReading, jsGt, jsLt, *]

/-- C4 witness: the rainfall rule beats the low-moisture rule at
    rainfall = 2 mm, soil_moisture = 15 %, and the other three rules fire at
    concrete inputs. -/
theorem determineMotorAction_priority_witness :
    determineMotorAction (fullReading 15 22 60 2) = false
    ∧ determineMotorAction (fullReading 15 22 60 0) = true
    ∧ determineMotorAction (fullReading 70 22 60 0) = false
    ∧ determineMotorAction (fullReading 35 32 45 0) = true :=
  ⟨(determineMotorAction_priority 15 22 60 2).1 (by norm_num),
   (determineMotorAction_priority 15 22 60 0).2.1 (by norm_num) (by norm_num),
   (determineMotorAction_priority 70 22 60 0).2.2.1 (by norm_num) (by norm_num) (by norm_num),
   (determineMotorAction_priority 35 32 45 0).2.2.2 (by norm_num) (by norm_num) (by norm_num)
     (by norm_num) (by norm_num) (by norm_num)⟩

/-- C9: whenever the latest persisted motor record has mode "manual", the
    auto-control handler appends nothing and leaves the audit log unchanged,
    for every sensor reading. -/
theorem autoControl_manual_no_append (s : MotorSensorData) (cur : MotorRecord)
    (rest : List MotorRecord) (h : cur.mode = "manual") :
    (autoControlPost s (cur :: rest)).1 = cur :: rest
    ∧ (autoControlPost s (cur :: rest)).2 = AutoControlResponse.manualMode cur.status := by
  constructor <;> simp [autoControlPost, h]

/-- C9 witness: concrete manual-mode record and reading. -/
theorem autoControl_manual_no_append_witness :
    (autoControlPost (fullReading 15 22 60 0)
        [⟨true, "manual", ReasonMsg.external "user toggle", "user"⟩]).1 =
      [⟨true, "manual", ReasonMsg.external "user toggle", "user"⟩]
    ∧ (autoControlPost (fullReading 15 22 60 0)
        [⟨true, "manual", ReasonMsg.external "user toggle", "user"⟩]).2 =
      AutoControlResponse.manualMode true :=
  autoControl_manual_no_append (fullReading 15 22 60 0)
    ⟨true, "manual", ReasonMsg.external "user toggle", "user"⟩ [] (by decide)

/-- C5: the auto-control operation appends a new motor-state record iff the
    computed decision differs from the current persisted status (for a reading
    with all fields present), a single call appends at most one record, and
    the operation is idempotent on the log — so invoking it twice with the
    same reading appends at most one record, and a no-op decision creates no
    record. -/
theorem autoControl_append_iff_idempotent (sm ta ah rain : ℚ) (log : List MotorRecord) :
    ((autoControlPost (fullReading sm ta ah rain) log).1.length ≤ log.length + 1)
    ∧ ((autoControlPost (fullReading sm ta ah rain)
          (autoControlPost (fullReading sm ta ah rain) log).1).1 =
        (autoControlPost (fullReading sm ta ah rain) log).1)
    ∧ (∀ cur rest, log = cur :: rest →
        ((autoControlPost (fullReading sm ta ah rain) log).1 ≠ log ↔
          cur.mode = "automatic"
            ∧ determineMotorAction (fullReading sm ta ah rain) ≠ cur.status)) := by
  have hsome := generateAutoControlReason_isSome sm ta ah rain
    (determineMotorAction (fullReading sm ta ah rain))
  obtain ⟨r, hr⟩ := Option.isSome_iff_exists.mp hsome
  refine ⟨?_, ?_, ?_⟩
  · cases log with
    | nil => simp [autoControlPost]
    | cons cur rest =>
      by_cases hm : cur.mode = "automatic"
      · by_cases ha : determineMotorAction (fullReading sm ta ah rain) = cur.status
        · simp [autoControlPost, hm, ha]
        · simp [autoControlPost, hm, ha, hr]
      · simp [autoControlPost, hm]
  · cases log with
    | nil => simp [autoControlPost]
    | cons cur rest =>
      by_cases hm : cur.mode = "automatic"
      · by_cases ha : determineMotorAction (fullReading sm ta ah rain) = cur.status
        · simp [autoControlPost, hm, ha]
        · simp [autoControlPost, hm, ha, hr]
      · simp [autoControlPost, hm]
  · rintro cur rest rfl
    constructor
    · intro hne
      by_cases hm : cur.mode = "automatic"
      · by_cases ha : determineMotorAction (fullReading sm ta ah rain) = cur.status
        · exact absurd (by simp [autoControlPost, hm, ha]) hne
        · exact ⟨hm, ha⟩
      · exact absurd (by simp [autoControlPost, hm]) hne
    · rintro ⟨hm, ha⟩
      simp [autoControlPost, hm, ha, hr]

/-- C5 witness: with soil_moisture 50 (no rule fires, decision `false`) and a
    current on/automatic record, the append-iff-changed equivalence holds at a
    concrete log. -/
theorem autoControl_append_iff_idempotent_witness :
    (autoControlPost (fullReading 50 22 60 0)
        [⟨true, "automatic", ReasonMsg.external "Initial setup", "system"⟩]).1 ≠
      [⟨true, "automatic", ReasonMsg.external "Initial setup", "system"⟩] ↔
    (MotorRecord.mk true "automatic" (ReasonMsg.external "Initial setup") "system").mode
        = "automatic"
      ∧ determineMotorAction (fullReading 50 22 60 0) ≠
        (MotorRecord.mk true "automatic" (ReasonMsg.external "Initial setup") "system").status :=
  (autoControl_append_iff_idempotent 50 22 60 0
      [⟨true, "automatic", ReasonMsg.external "Initial setup", "system"⟩]).2.2
    ⟨true, "automatic", ReasonMsg.external "Initial setup", "system"⟩ [] rfl

/-- C3: for every reading and every profile with non-degenerate ranges, the
    overall crop suitability score — the rounded mean of the four
    per-parameter sub-scores — lies in [20, 100]. -/
theorem cropSuitability_bounds (sm st ta ah : ℚ) (o : OptimalRanges)
    (h : nondegenerate o) :
    20 ≤ calculateCropSuitability sm st ta ah o
    ∧ calculateCropSuitability sm st ta ah o ≤ 100 := by
  obtain ⟨h1, h2, h3, h4⟩ := h
  obtain ⟨b1l, b1u⟩ := paramScore_bounds sm o.soil_moisture h1
  obtain ⟨b2l, b2u⟩ := paramScore_bounds st o.soil_temperature h2
  obtain ⟨b3l, b3u⟩ := paramScore_bounds ta o.air_temperature h3
  obtain ⟨b4l, b4u⟩ := paramScore_bounds ah o.air_humidity h4
  rw [calculateCropSuitability_eq]
  exact jsRound_bounds _ 20 100 (by push_cast; linarith) (by push_cast; linarith)

/-- C3 witness: concrete reading against the tomato profile. -/
theorem cropSuitability_bounds_witness :
    20 ≤ calculateCropSuitability 50 20 25 60 tomatoOptimal
    ∧ calculateCropSuitability 50 20 25 60 tomatoOptimal ≤ 100 :=
  cropSuitability_bounds 50 20 25 60 tomatoOptimal
    (by simp only [nondegenerate, tomatoOptimal]; norm_num)

/-- C6: for a non-degenerate range, a parameter exactly at the midpoint scores
    exactly 100 and a parameter exactly at either bound scores exactly 80. -/
theorem parameterScore_mid_and_edges (omin omax : ℚ) (h : omin < omax) :
    calculateParameterScore ((omin + omax) / 2) (omin, omax) = 100
    ∧ calculateParameterScore omin (omin, omax) = 80
    ∧ calculateParameterScore omax (omin, omax) = 80 :=
  ⟨paramScore_mid omin omax h, paramScore_left_edge omin omax h,
   paramScore_right_edge omin omax h⟩

/-- C6 witness: the tomato soil-moisture range [40, 70]. -/
theorem parameterScore_mid_and_edges_witness :
    calculateParameterScore ((40 + 70) / 2) (40, 70) = 100
    ∧ calculateParameterScore 40 (40, 70) = 80
    ∧ calculateParameterScore 70 (40, 70) = 80 :=
  parameterScore_mid_and_edges 40 70 (by norm_num)

/-- C7: for every reading, the recommendation list is the input crop list
    sorted descending by suitability_score (a permutation, pairwise
    descending), equal scores keep their input order (filter-stability), and
    the spec's concrete scenario holds: profiles scored 70, 90, 90 in input
    order [P3, P1, P2] sort to [P1, P2, P3]. -/
theorem cropRecommendations_sorted_stable (sensorData : CropSensorData) :
    List.Sorted recLE (generateCropRecommendations sensorData)
    ∧ List.Perm (generateCropRecommendations sensorData) (cropCandidates sensorData)
    ∧ (∀ k : ℤ, (generateCropRecommendations sensorData).filter
          (fun x => decide (x.suitability_score = k)) =
        (cropCandidates sensorData).filter (fun x => decide (x.suitability_score = k)))
    ∧ sortRecs [⟨"P3", 70⟩, ⟨"P1", 90⟩, ⟨"P2", 90⟩] =
        [⟨"P1", 90⟩, ⟨"P2", 90⟩, ⟨"P3", 70⟩] :=
  ⟨sortRecs_sorted (cropCandidates sensorData), sortRecs_perm (cropCandidates sensorData),
   fun k => filter_sortRecs k (cropCandidates sensorData), by decide⟩

/-- C8 counterexample: a degenerate range (min = max = 50) does not fail at
    load time with any `ConfigError` — the code has no such check; the scoring
    function is evaluated on it and returns a numeric score (the out-of-range
    branch, which involves no division), both per-parameter and overall. -/
theorem degenerate_range_scored :
    calculateParameterScore 60 (50, 50) = 50
    ∧ calculateCropSuitability 60 60 60 60 ⟨(50, 50), (50, 50), (50, 50), (50, 50)⟩ = 50 := by
  have h : calculateParameterScore 60 (50, 50) = 50 := by norm_num [calculateParameterScore]
  refine ⟨h, ?_⟩
  rw [calculateCropSuitability_eq]
  show jsRound ((calculateParameterScore 60 (50, 50) + calculateParameterScore 60 (50, 50)
    + calculateParameterScore 60 (50, 50) + calculateParameterScore 60 (50, 50)) / 4) = 50
  rw [h]
  exact jsRound_eq _ 50 (by norm_num) (by norm_num)

/-- C8 amended: the five hard-coded crop profiles all have min < max in every
    parameter, so within the code's own pipeline the in-range division divisor
    `range / 2` is always positive — but this is a property of the constant
    data, not enforced by any load-time check. -/
theorem cropProfiles_nondegenerate :
    nondegenerate tomatoOptimal ∧ nondegenerate lettuceOptimal
    ∧ nondegenerate pepperOptimal ∧ nondegenerate spinachOptimal
    ∧ nondegenerate carrotOptimal := by
  simp only [nondegenerate, tomatoOptimal, lettuceOptimal, pepperOptimal, spinachOptimal,
    carrotOptimal]
  norm_num

/-- C10: a value strictly outside a non-degenerate range at distance
    0 < d < 4 from the nearer bound scores 100 − 5·d, which is strictly above
    the boundary score 80 — the sub-score is discontinuous at the bounds and
    not monotone in the distance from the midpoint. -/
theorem parameterScore_outside_near_boundary (omin omax d : ℚ) (h : omin < omax)
    (hd0 : 0 < d) (hd4 : d < 4) :
    calculateParameterScore (omin - d) (omin, omax) = 100 - 5 * d
    ∧ calculateParameterScore (omax + d) (omin, omax) = 100 - 5 * d
    ∧ 80 < 100 - 5 * d
    ∧ calculateParameterScore omin (omin, omax) = 80
    ∧ calculateParameterScore omax (omin, omax) = 80 :=
  ⟨paramScore_below omin omax d hd0 hd4, paramScore_above omin omax d h hd0 hd4,
   by linarith, paramScore_left_edge omin omax h, paramScore_right_edge omin omax h⟩

/-- C10 witness: range [40, 70] at distance 2. -/
theorem parameterScore_outside_near_boundary_witness :
    calculateParameterScore (40 - 2) (40, 70) = 100 - 5 * 2
    ∧ calculateParameterScore (70 + 2) (40, 70) = 100 - 5 * 2
    ∧ (80 : ℚ) < 100 - 5 * 2
    ∧ calculateParameterScore 40 (40, 70) = 80
    ∧ calculateParameterScore 70 (40, 70) = 80 :=
  parameterScore_outside_near_boundary 40 70 2 (by norm_num) (by norm_num) (by norm_num)
